import Mathlib

/-!
Verification of the planet-scene render-lifecycle component
(`src/components/Planet.vue`, scheduling variant).

The geometry layer embeds the camera auto-framing routine `frameScene`
over real numbers; the scheduler layer embeds the visibility-driven
animation state machine (`tick`, `startAnimation`, `stopAnimation`,
the three signal handlers installed in `onMounted`, and the
`onBeforeUnmount` teardown).
-/

namespace Portfolio2026

open Real

/-- Embeds `THREE.MathUtils.degToRad`. -/
noncomputable def degToRad (d : ℝ) : ℝ := d * π / 180

/-- Fragment of `THREE.Vector3` used by `frameScene`. -/
structure Vec3 where
  x : ℝ
  y : ℝ
  z : ℝ

/-- Embeds `Vector3.subVectors(a, b)` / `a.sub(b)`. -/
def Vec3.sub (a b : Vec3) : Vec3 := ⟨a.x - b.x, a.y - b.y, a.z - b.z⟩

/-- Embeds `Vector3.add`. -/
def Vec3.add (a b : Vec3) : Vec3 := ⟨a.x + b.x, a.y + b.y, a.z + b.z⟩

/-- Embeds `Vector3.multiplyScalar`. -/
def Vec3.smul (a : Vec3) (s : ℝ) : Vec3 := ⟨a.x * s, a.y * s, a.z * s⟩

/-- Embeds `Vector3.length`. -/
noncomputable def Vec3.length (a : Vec3) : ℝ :=
  Real.sqrt (a.x ^ 2 + a.y ^ 2 + a.z ^ 2)

/-- Embeds `Vector3.normalize`: three.js divides by `length() || 1`, i.e. a zero
vector is left unchanged (division by the fallback 1). -/
noncomputable def Vec3.normalize (a : Vec3) : Vec3 :=
  a.smul (1 / (if a.length = 0 then 1 else a.length))

/-- Embeds `THREE.Sphere` as produced by `Box3.getBoundingSphere`. -/
structure Sphere3 where
  center : Vec3
  radius : ℝ

/-- The fields of `THREE.PerspectiveCamera` that `frameScene`,
`onWindowResize` and the spec's CameraState read or write.  `lookAtTarget`
records the point most recently passed to `camera.lookAt`; the projection
matrix itself is a pure function of `fovDeg`, `aspect`, `near`, `far`, so
`updateProjectionMatrix` has no separate state here. -/
structure Camera where
  pos : Vec3
  fovDeg : ℝ
  aspect : ℝ
  near : ℝ
  far : ℝ
  lookAtTarget : Vec3

/-- The camera-to-center distance that `frameScene` computes:
`max(radius / tan(vFov/2), radius / tan(hFov/2)) * fitPadding` with
`hFov = 2 * atan(tan(vFov/2) * aspect)`. -/
noncomputable def fsDistance (sph : Sphere3) (fitPadding : ℝ) (cam : Camera) : ℝ :=
  let vFov := degToRad cam.fovDeg
  let hFov := 2 * Real.arctan (Real.tan (vFov / 2) * cam.aspect)
  let distV := sph.radius / Real.tan (vFov / 2)
  let distH := sph.radius / Real.tan (hFov / 2)
  max distV distH * fitPadding

/-- Embeds `frameScene` (the ViewportFitter), lines 118-137 of the source.  The
bounding sphere of `rootGroup` is passed in, since `Box3.setFromObject` is a
three.js collaborator; the early-return guard `!rootGroup || !camera` only
concerns calls before `init`, which are outside this model.  The source
computes `direction = normalize(camera.position - sphere.center)` and copies
`direction * distance + sphere.center` into the camera position, then sets
`near = max(0.1, distance - radius*2)`, `far = distance + radius*4`, and
re-aims at the center. -/
noncomputable def frameScene (sph : Sphere3) (fitPadding : ℝ) (cam : Camera) : Camera :=
  let vFov := degToRad cam.fovDeg
  let hFov := 2 * Real.arctan (Real.tan (vFov / 2) * cam.aspect)
  let distV := sph.radius / Real.tan (vFov / 2)
  let distH := sph.radius / Real.tan (hFov / 2)
  let distance := max distV distH * fitPadding
  let direction := (cam.pos.sub sph.center).normalize
  { cam with
    pos := (direction.smul distance).add sph.center
    near := max 0.1 (distance - sph.radius * 2)
    far := distance + sph.radius * 4
    lookAtTarget := sph.center }

/-- Modelled from the spec (§4.2 ViewportFitter), for comparison with the
source's `frameScene`: the viewing direction is "the normalized vector from
the current camera position to the bounding-sphere center", the camera is
relocated along that direction at the computed distance from the center
(i.e. at `center - distance * direction`), with
`near = max(0.1, distance - 2*radius)` and `far = distance + 4*radius`,
re-aimed at the center. -/
noncomputable def frameScene_spec (sph : Sphere3) (fitPadding : ℝ) (cam : Camera) : Camera :=
  let vFov := degToRad cam.fovDeg
  let hFov := 2 * Real.arctan (Real.tan (vFov / 2) * cam.aspect)
  let distance :=
    max (sph.radius / Real.tan (vFov / 2)) (sph.radius / Real.tan (hFov / 2)) * fitPadding
  let direction := (sph.center.sub cam.pos).normalize
  { cam with
    pos := sph.center.sub (direction.smul distance)
    near := max 0.1 (distance - 2 * sph.radius)
    far := distance + 4 * sph.radius
    lookAtTarget := sph.center }

/-- Distance from the camera to a point. -/
noncomputable def distanceTo (cam : Camera) (p : Vec3) : ℝ := (cam.pos.sub p).length

/-- Vertical half field of view, in radians. -/
noncomputable def vHalf (cam : Camera) : ℝ := degToRad cam.fovDeg / 2

/-- Horizontal half field of view: `hFov/2 = atan(tan(vFov/2) * aspect)`. -/
noncomputable def hHalf (cam : Camera) : ℝ :=
  Real.arctan (Real.tan (vHalf cam) * cam.aspect)

/-- The bounding sphere lies strictly between the near and far planes:
`near < d - r` and `d + r < far`, where `d` is the camera-to-center
distance. -/
noncomputable def sphereBetweenNearFar (cam : Camera) (sph : Sphere3) : Prop :=
  cam.near < distanceTo cam sph.center - sph.radius ∧
  distanceTo cam sph.center + sph.radius < cam.far

/-- The bounding sphere is contained strictly inside the four frustum side
planes.  For a camera aimed at the sphere center, the center sits on the view
axis at depth `d`, and its distance to each side plane (each passes through
the camera apex at the half-FOV angle from the axis) is `d * sin(halfFov)`;
the sphere is inside iff that exceeds the radius, for both the vertical and
the horizontal half angle. -/
noncomputable def sphereInsideFrustumSides (cam : Camera) (sph : Sphere3) : Prop :=
  sph.radius < distanceTo cam sph.center * Real.sin (vHalf cam) ∧
  sph.radius < distanceTo cam sph.center * Real.sin (hHalf cam)

/-! ## Scheduler layer: component state, frame loop, signal handlers -/

/-- The module-level mutable state of the component that the scheduler and
the animation driver touch.  `frameId` is the handle last returned by
`requestAnimationFrame` (`none` models `undefined`/`null`); `nextFrameId`
is a fresh-handle counter standing in for the browser's id allocation.
`isVisible` is the element-intersection flag, `prmMatches` the
`(prefers-reduced-motion: reduce)` media-query state, `docHidden` is
`document.hidden`.  `orbitAngle`, `moonOrbitRotY` (`moonOrbit.rotation.y`)
and `moonPosY` (`moon.position.y`) are the transforms the animation driver
mutates; `rendererW`/`rendererH` is the renderer's canvas size. -/
structure CompState where
  frameId : Option ℕ
  nextFrameId : ℕ
  isVisible : Bool
  prmMatches : Bool
  docHidden : Bool
  orbitAngle : ℝ
  moonOrbitRotY : ℝ
  moonPosY : ℝ
  camera : Camera
  rendererW : ℝ
  rendererH : ℝ

/-- Counters for the externally observable calls one step of the component
makes: `requestAnimationFrame` registrations, `cancelAnimationFrame` calls,
`renderer.render` calls, and executions of the per-tick animation update. -/
structure Effects where
  scheduled : ℕ
  cancelled : ℕ
  renders : ℕ
  animUpdates : ℕ
  deriving DecidableEq

/-- No external calls. -/
def noEff : Effects := ⟨0, 0, 0, 0⟩

/-- Embeds `startAnimation` (source lines 154-157): if `frameId != null` return,
else `frameId = requestAnimationFrame(tick)`. -/
def startAnimation (s : CompState) : CompState × Effects :=
  if s.frameId.isSome then (s, noEff)
  else ({ s with frameId := some s.nextFrameId, nextFrameId := s.nextFrameId + 1 },
        { noEff with scheduled := 1 })

/-- Embeds `stopAnimation` (source lines 159-163): if `frameId == null` return,
else `cancelAnimationFrame(frameId); frameId = undefined`. -/
def stopAnimation (s : CompState) : CompState × Effects :=
  if s.frameId.isSome then ({ s with frameId := none }, { noEff with cancelled := 1 })
  else (s, noEff)

/-- The AnimationDriver body (source lines 147-149):
`orbitAngle += 0.003; moonOrbit.rotation.y = orbitAngle;
moon.position.y = 1.1 + Math.sin(orbitAngle * 0.5) * 0.18`. -/
noncomputable def animUpdate (s : CompState) : CompState :=
  let a := s.orbitAngle + 0.003
  { s with
    orbitAngle := a
    moonOrbitRotY := a
    moonPosY := 1.1 + Real.sin (a * 0.5) * 0.18 }

/-- Embeds `tick` (source lines 139-152): if
`prefersReducedMotion?.matches || !isVisible` then `frameId = undefined` and
return; otherwise reschedule itself, run the animation update, and render. -/
noncomputable def tick (s : CompState) : CompState × Effects :=
  if s.prmMatches || !s.isVisible then
    ({ s with frameId := none }, noEff)
  else
    (animUpdate { s with frameId := some s.nextFrameId, nextFrameId := s.nextFrameId + 1 },
     { scheduled := 1, cancelled := 0, renders := 1, animUpdates := 1 })

/-- The state after one firing of the scheduled frame callback. -/
noncomputable def tickState (s : CompState) : CompState := (tick s).1

/-- The three asynchronous boolean signals feeding the scheduler. -/
inductive Signal where
  | intersection (isIntersecting : Bool)
  | prmChange (nowMatches : Bool)
  | visChange (hidden : Bool)

/-- The signal handlers installed in `onMounted` (source lines 169-197):
`handlePRM` for the reduced-motion media query, the `IntersectionObserver`
callback, and the `visibilitychange` listener.  Each returns the updated
state together with the external calls made while processing the event. -/
noncomputable def applySignal (sig : Signal) (s : CompState) : CompState × Effects :=
  match sig with
  | .intersection b =>
      let s1 := { s with isVisible := b }
      if s1.isVisible && !s1.prmMatches then startAnimation s1
      else
        let r := stopAnimation s1
        (r.1, { r.2 with renders := r.2.renders + 1 })
  | .prmChange m =>
      let s1 := { s with prmMatches := m }
      if s1.prmMatches then
        let r := stopAnimation s1
        (r.1, { r.2 with renders := r.2.renders + 1 })
      else if s1.isVisible then startAnimation s1
      else (s1, noEff)
  | .visChange h =>
      let s1 := { s with docHidden := h }
      if s1.docHidden then stopAnimation s1
      else if s1.isVisible && !s1.prmMatches then startAnimation s1
      else (s1, noEff)

/-- The spec's combined signal (§3):
`shouldAnimate = elementIntersecting && documentVisible && !reducedMotion`. -/
def shouldAnimate (s : CompState) : Bool :=
  s.isVisible && !s.docHidden && !s.prmMatches

/-- The scheduler is RUNNING iff a frame callback is outstanding. -/
def running (s : CompState) : Bool := s.frameId.isSome

/-- Reachability invariant of the scheduler: a frame is only ever scheduled
while the element is intersecting and reduced motion is off (`startAnimation`
is guarded by those conditions at every call site, and `tick` clears
`frameId` when they fail). -/
def SchedInv (s : CompState) : Prop :=
  s.frameId.isSome = true → s.isVisible = true ∧ s.prmMatches = false

/-- Embeds `onWindowResize` (source lines 109-116): a no-op when the container ref
is empty; otherwise it recomputes the aspect ratio, updates the projection,
resizes the renderer and re-runs `frameScene`.  The container's current
size and the scene bounding sphere are parameters (they live in the DOM and
in three.js). -/
noncomputable def onWindowResize (container : Option (ℝ × ℝ)) (sph : Sphere3)
    (fitPadding : ℝ) (s : CompState) : CompState :=
  match container with
  | none => s
  | some (w, h) =>
      { s with
        camera := frameScene sph fitPadding { s.camera with aspect := w / h }
        rendererW := w
        rendererH := h }

/-! ## Mount / teardown layer -/

/-- Which of the component's listeners are currently attached:
the window `resize` listener, the reduced-motion media-query `change`
handler (`handlePRM`), the `IntersectionObserver`, and the document
`visibilitychange` listener. -/
structure Listeners where
  resizeAttached : Bool
  prmAttached : Bool
  intersectionAttached : Bool
  visAttached : Bool
  deriving DecidableEq

/-- A mounted component: its mutable state, its attached listeners, and
whether `renderer.dispose()` has been called. -/
structure Component where
  st : CompState
  ls : Listeners
  disposed : Bool

/-- Identity token of the `handlePRM` closure created in `onMounted` and
registered with `prefersReducedMotion.addEventListener('change', handlePRM)`.
JS `removeEventListener` removes a listener only when given the identical
function object, so closures are modelled by identity tokens. -/
def handlePRMToken : ℕ := 0

/-- Identity token of the fresh anonymous closure `() => {}` that
`onBeforeUnmount` passes to `prefersReducedMotion.removeEventListener`;
a newly allocated function object, distinct from `handlePRMToken`. -/
def teardownAnonToken : ℕ := 1

/-- The state right after `init()` runs inside `onMounted`: camera created
as `PerspectiveCamera(45, w/h, 0.1, 100)` at `(0, 1.2, 6)` and then framed
by the `frameScene()` call at the end of `init`; `orbitAngle = 0`;
`moonOrbit.rotation.y` at its `Group` default `0`; `moon.position.y = 1.1`;
`isVisible = true`; `frameId` undefined.  The scene bounding sphere is a
parameter (three.js computes it), and the media-query / document-visibility
readings at mount time are inputs.  The camera's initial look target is
irrelevant: `frameScene` overwrites it with the sphere center. -/
noncomputable def initState (w h : ℝ) (sph : Sphere3) (fitPadding : ℝ)
    (prm docHidden : Bool) : CompState :=
  { frameId := none
    nextFrameId := 0
    isVisible := true
    prmMatches := prm
    docHidden := docHidden
    orbitAngle := 0
    moonOrbitRotY := 0
    moonPosY := 1.1
    camera := frameScene sph fitPadding
      { pos := ⟨0, 1.2, 6⟩, fovDeg := 45, aspect := w / h,
        near := 0.1, far := 100, lookAtTarget := ⟨0, 0, 0⟩ }
    rendererW := w
    rendererH := h }

/-- All four listeners attached, as at the end of `onMounted` (the
`IntersectionObserver` observes the container, which is present at mount). -/
def allAttached : Listeners := ⟨true, true, true, true⟩

/-- Embeds `onMounted` (source lines 165-205): `init()`, install the three signal
handlers and the resize listener, then the initial decision — if
`!prefersReducedMotion.matches` call `startAnimation()`, else issue one
immediate `renderer.render`. -/
noncomputable def mount (w h : ℝ) (sph : Sphere3) (fitPadding : ℝ)
    (prm docHidden : Bool) : Component × Effects :=
  let s := initState w h sph fitPadding prm docHidden
  if prm = false then
    let r := startAnimation s
    (⟨r.1, allAttached, false⟩, r.2)
  else
    (⟨s, allAttached, false⟩, { noEff with renders := 1 })

/-- Embeds `onBeforeUnmount` (source lines 206-212): `stopAnimation()`, remove the
window resize listener, call
`prefersReducedMotion?.removeEventListener?.('change', () => \x7b\x7d)` —
which passes a fresh anonymous function, so it detaches the `change`
handler only if that token coincides with the registered one — disconnect
the `IntersectionObserver`, and `renderer?.dispose?.()`.  No
`document.removeEventListener('visibilitychange', ...)` call occurs. -/
def teardown (c : Component) : Component × Effects :=
  let r := stopAnimation c.st
  let ls1 := { c.ls with resizeAttached := false }
  let ls2 :=
    if teardownAnonToken = handlePRMToken then { ls1 with prmAttached := false } else ls1
  let ls3 := { ls2 with intersectionAttached := false }
  (⟨r.1, ls3, true⟩, r.2)

/-- Delivery of a browser event to the component: the corresponding handler
runs iff it is still attached. -/
noncomputable def deliver (sig : Signal) (c : Component) : Component × Effects :=
  let attached :=
    match sig with
    | .intersection _ => c.ls.intersectionAttached
    | .prmChange _ => c.ls.prmAttached
    | .visChange _ => c.ls.visAttached
  if attached then
    let r := applySignal sig c.st
    ({ c with st := r.1 }, r.2)
  else (c, noEff)

/-- A concrete camera as `init` creates it: fov 45, aspect 800/600 rounded
here to 1 for readability of witnesses, near 0.1, far 100, at (0, 1.2, 6). -/
noncomputable def sampleCam : Camera :=
  { pos := ⟨0, 1.2, 6⟩, fovDeg := 45, aspect := 1, near := 0.1, far := 100,
    lookAtTarget := ⟨0, 0, 0⟩ }

/-- A concrete component state with no frame scheduled. -/
noncomputable def sampleStopped : CompState :=
  { frameId := none, nextFrameId := 0, isVisible := true, prmMatches := false,
    docHidden := false, orbitAngle := 0, moonOrbitRotY := 0, moonPosY := 1.1,
    camera := sampleCam, rendererW := 800, rendererH := 600 }

/-- A concrete component state with a frame scheduled (handle 0). -/
noncomputable def sampleRunning : CompState :=
  { frameId := some 0, nextFrameId := 1, isVisible := true, prmMatches := false,
    docHidden := false, orbitAngle := 0, moonOrbitRotY := 0, moonPosY := 1.1,
    camera := sampleCam, rendererW := 800, rendererH := 600 }

/-- A concrete state in which the document is hidden, the element is not
intersecting, reduced motion is off, and nothing is scheduled. -/
noncomputable def hiddenDocState : CompState :=
  { frameId := none, nextFrameId := 0, isVisible := false, prmMatches := false,
    docHidden := true, orbitAngle := 0, moonOrbitRotY := 0, moonPosY := 1.1,
    camera := sampleCam, rendererW := 800, rendererH := 600 }

/-! ## Theorems -/

/-- C4: `startAnimation` and `stopAnimation` are idempotent: stop on a
stopped scheduler is a no-op making no cancellation call, a second start in
a row is a no-op, two starts in a row schedule exactly once and leave one
outstanding callback, and start while running / stop while stopped are
no-ops in general. -/
theorem start_stop_idempotent (s : CompState) (h : s.frameId = none) :
    stopAnimation s = (s, noEff) ∧
    (startAnimation s).2.scheduled = 1 ∧
    startAnimation (startAnimation s).1 = ((startAnimation s).1, noEff) ∧
    ((startAnimation s).1.frameId).isSome = true ∧
    (∀ s' : CompState, s'.frameId.isSome = true → startAnimation s' = (s', noEff)) ∧
    (∀ s' : CompState, s'.frameId = none → stopAnimation s' = (s', noEff)) := by
  refine ⟨by simp [stopAnimation, h], by simp [startAnimation, h],
    by simp [startAnimation, h], by simp [startAnimation, h],
    fun s' h' => by simp [startAnimation, h'],
    fun s' h' => by simp [stopAnimation, h']⟩

/-- Witness for C4 at a concrete stopped state. -/
theorem start_stop_idempotent_witness :
    sampleStopped.frameId = none ∧
    (stopAnimation sampleStopped = (sampleStopped, noEff) ∧
     (startAnimation sampleStopped).2.scheduled = 1 ∧
     startAnimation (startAnimation sampleStopped).1 =
       ((startAnimation sampleStopped).1, noEff) ∧
     ((startAnimation sampleStopped).1.frameId).isSome = true ∧
     (∀ s' : CompState, s'.frameId.isSome = true → startAnimation s' = (s', noEff)) ∧
     (∀ s' : CompState, s'.frameId = none → stopAnimation s' = (s', noEff))) :=
  ⟨rfl, start_stop_idempotent sampleStopped rfl⟩

/-- C8: right after mount, the scheduler is RUNNING iff the reduced-motion
preference was not already true at mount time; when it was, the component
instead issues exactly one immediate render and schedules nothing. -/
theorem initial_state_at_mount (w h : ℝ) (sph : Sphere3) (pad : ℝ) (prm dh : Bool) :
    running (mount w h sph pad prm dh).1.st = !prm ∧
    (mount w h sph pad prm dh).2 =
      (if prm then { noEff with renders := 1 } else { noEff with scheduled := 1 }) := by
  cases prm <;>
    simp [mount, initState, startAnimation, running, noEff]

/-- C1 counterexample: the claim "after any single signal-change event the
scheduler is RUNNING iff `shouldAnimate`" is false.  With the document
hidden, the element not intersecting and reduced motion off, an
intersection event turning `isVisible` on starts the animation even though
`shouldAnimate` is false (the intersection handler never consults
`document.hidden`). -/
theorem scheduler_shouldAnimate_cex :
    running (applySignal (.intersection true) hiddenDocState).1 = true ∧
    shouldAnimate (applySignal (.intersection true) hiddenDocState).1 = false := by
  constructor <;>
    simp [applySignal, startAnimation, running, shouldAnimate, hiddenDocState]

/-- C1 (amended): `shouldAnimate = elementIntersecting && documentVisible &&
!reducedMotion`, and from any state satisfying the scheduler's reachability
invariant, after a document-visibility change event the scheduler is RUNNING
iff `shouldAnimate`; after an intersection or reduced-motion change event it
is RUNNING iff `elementIntersecting && !reducedMotion` — those two handlers
do not consult document visibility. -/
theorem scheduler_state_after_signal (s : CompState) (hinv : SchedInv s) :
    (∀ i d m : Bool,
      shouldAnimate { s with isVisible := i, docHidden := !d, prmMatches := m } =
        (i && d && !m)) ∧
    (∀ hid : Bool,
      running (applySignal (.visChange hid) s).1 =
        shouldAnimate (applySignal (.visChange hid) s).1) ∧
    (∀ b : Bool,
      running (applySignal (.intersection b) s).1 =
        ((applySignal (.intersection b) s).1.isVisible &&
          !(applySignal (.intersection b) s).1.prmMatches)) ∧
    (∀ m : Bool,
      running (applySignal (.prmChange m) s).1 =
        ((applySignal (.prmChange m) s).1.isVisible &&
          !(applySignal (.prmChange m) s).1.prmMatches)) := by
  obtain ⟨fid, nid, iv, prm, dh, oa, mry, mpy, cam, rw, rh⟩ := s
  have hinv' : fid.isSome = true → iv = true ∧ prm = false := hinv
  refine ⟨by simp [shouldAnimate], ?_, ?_, ?_⟩ <;>
    simp only [Bool.forall_bool] <;>
      cases iv <;> cases prm <;> cases dh <;> cases fid <;>
        simp_all [applySignal, startAnimation, stopAnimation, running, shouldAnimate]

/-- Witness for C1 (amended) at a concrete state satisfying the invariant. -/
theorem scheduler_state_after_signal_witness :
    SchedInv sampleStopped ∧
    ((∀ i d m : Bool,
      shouldAnimate { sampleStopped with isVisible := i, docHidden := !d, prmMatches := m } =
        (i && d && !m)) ∧
     (∀ hid : Bool,
      running (applySignal (.visChange hid) sampleStopped).1 =
        shouldAnimate (applySignal (.visChange hid) sampleStopped).1) ∧
     (∀ b : Bool,
      running (applySignal (.intersection b) sampleStopped).1 =
        ((applySignal (.intersection b) sampleStopped).1.isVisible &&
          !(applySignal (.intersection b) sampleStopped).1.prmMatches)) ∧
     (∀ m : Bool,
      running (applySignal (.prmChange m) sampleStopped).1 =
        ((applySignal (.prmChange m) sampleStopped).1.isVisible &&
          !(applySignal (.prmChange m) sampleStopped).1.prmMatches))) :=
  ⟨fun h => by simp [sampleStopped] at h,
   scheduler_state_after_signal sampleStopped (fun h => by simp [sampleStopped] at h)⟩

/-- C3: from a RUNNING state, a reduced-motion-on event or an
intersection-off event cancels the pending frame (exactly one cancellation),
issues exactly one render, runs zero AnimationDriver updates, and leaves the
orbit angle and the moon transforms exactly as they were at the stop
moment. -/
theorem stop_transition_final_render (s : CompState) (k : ℕ) (h : s.frameId = some k) :
    ((applySignal (.prmChange true) s).1.frameId = none ∧
     (applySignal (.prmChange true) s).2 = ⟨0, 1, 1, 0⟩ ∧
     (applySignal (.prmChange true) s).1.orbitAngle = s.orbitAngle ∧
     (applySignal (.prmChange true) s).1.moonOrbitRotY = s.moonOrbitRotY ∧
     (applySignal (.prmChange true) s).1.moonPosY = s.moonPosY) ∧
    ((applySignal (.intersection false) s).1.frameId = none ∧
     (applySignal (.intersection false) s).2 = ⟨0, 1, 1, 0⟩ ∧
     (applySignal (.intersection false) s).1.orbitAngle = s.orbitAngle ∧
     (applySignal (.intersection false) s).1.moonOrbitRotY = s.moonOrbitRotY ∧
     (applySignal (.intersection false) s).1.moonPosY = s.moonPosY) := by
  constructor <;>
    simp [applySignal, stopAnimation, h, noEff]

/-- Witness for C3 at a concrete RUNNING state. -/
theorem stop_transition_final_render_witness :
    sampleRunning.frameId = some 0 ∧
    (((applySignal (.prmChange true) sampleRunning).1.frameId = none ∧
      (applySignal (.prmChange true) sampleRunning).2 = ⟨0, 1, 1, 0⟩ ∧
      (applySignal (.prmChange true) sampleRunning).1.orbitAngle = sampleRunning.orbitAngle ∧
      (applySignal (.prmChange true) sampleRunning).1.moonOrbitRotY = sampleRunning.moonOrbitRotY ∧
      (applySignal (.prmChange true) sampleRunning).1.moonPosY = sampleRunning.moonPosY) ∧
     ((applySignal (.intersection false) sampleRunning).1.frameId = none ∧
      (applySignal (.intersection false) sampleRunning).2 = ⟨0, 1, 1, 0⟩ ∧
      (applySignal (.intersection false) sampleRunning).1.orbitAngle = sampleRunning.orbitAngle ∧
      (applySignal (.intersection false) sampleRunning).1.moonOrbitRotY = sampleRunning.moonOrbitRotY ∧
      (applySignal (.intersection false) sampleRunning).1.moonPosY = sampleRunning.moonPosY)) :=
  ⟨rfl, stop_transition_final_render sampleRunning 0 rfl⟩

/-- C10: no signal handler and neither `startAnimation` nor `stopAnimation`
touches the orbit angle, the orbit group's rotation, the moon's vertical
position or the camera — the pose is frozen while stopped — and a restart
resumes from the stopped angle: the first tick after a restart yields
`orbitAngle + 0.003`, not `0.003`. -/
theorem transforms_frozen_outside_tick (s : CompState) (sig : Signal) :
    ((applySignal sig s).1.orbitAngle = s.orbitAngle ∧
     (applySignal sig s).1.moonOrbitRotY = s.moonOrbitRotY ∧
     (applySignal sig s).1.moonPosY = s.moonPosY ∧
     (applySignal sig s).1.camera = s.camera) ∧
    ((startAnimation s).1.orbitAngle = s.orbitAngle ∧
     (startAnimation s).1.moonOrbitRotY = s.moonOrbitRotY ∧
     (startAnimation s).1.moonPosY = s.moonPosY ∧
     (startAnimation s).1.camera = s.camera) ∧
    ((stopAnimation s).1.orbitAngle = s.orbitAngle ∧
     (stopAnimation s).1.moonOrbitRotY = s.moonOrbitRotY ∧
     (stopAnimation s).1.moonPosY = s.moonPosY ∧
     (stopAnimation s).1.camera = s.camera) ∧
    (s.isVisible = true → s.prmMatches = false →
      (tickState (startAnimation s).1).orbitAngle = s.orbitAngle + 0.003) := by
  refine ⟨?_, ?_, ?_, fun hv hm => ?_⟩
  · cases sig <;> dsimp only [applySignal] <;> split <;> (try split) <;>
      (try simp only [startAnimation, stopAnimation]) <;> (try split) <;> simp
  · simp only [startAnimation]
    split <;> simp
  · simp only [stopAnimation]
    split <;> simp
  · have h1 : (startAnimation s).1.prmMatches = false := by
      simp only [startAnimation]; split <;> simp [hm]
    have h2 : (startAnimation s).1.isVisible = true := by
      simp only [startAnimation]; split <;> simp [hv]
    have h3 : (startAnimation s).1.orbitAngle = s.orbitAngle := by
      simp only [startAnimation]; split <;> simp
    simp [tickState, tick, animUpdate, h1, h2, h3]

/-- Witness for C10 at a concrete stopped state: restarting and ticking
resumes from the stored angle. -/
theorem transforms_frozen_outside_tick_witness :
    sampleStopped.isVisible = true ∧ sampleStopped.prmMatches = false ∧
    (tickState (startAnimation sampleStopped).1).orbitAngle =
      sampleStopped.orbitAngle + 0.003 :=
  ⟨rfl, rfl, (transforms_frozen_outside_tick sampleStopped (.visChange true)).2.2.2 rfl rfl⟩

/-- C2 (code-bug exhibit): after `onBeforeUnmount` runs, the reduced-motion
`change` handler is still attached (the teardown passed a freshly created
anonymous function to `removeEventListener`, not `handlePRM`) and the
`visibilitychange` listener is still attached (it is never removed), and a
post-teardown reduced-motion change to `false` reaches the handler and
schedules a new frame — contradicting the claim that no signal event after
teardown causes any scheduling call. -/
theorem post_teardown_event_schedules :
    (let c := (teardown (mount 800 600 ⟨⟨0, 0, 0⟩, 2⟩ 1.15 true false).1).1
     c.ls.prmAttached = true ∧ c.ls.visAttached = true ∧
     c.ls.resizeAttached = false ∧ c.ls.intersectionAttached = false ∧
     (deliver (.prmChange false) c).2.scheduled = 1 ∧
     running (deliver (.prmChange false) c).1.st = true) := by
  simp [mount, teardown, deliver, applySignal, startAnimation, stopAnimation,
    initState, allAttached, handlePRMToken, teardownAnonToken, running, noEff]

/-- C9: the resize handler recomputes the aspect ratio, reruns the
ViewportFitter on the updated camera and resizes the renderer, while leaving
`frameId`, the visibility/motion signals, the orbit angle and the moon
transforms unchanged; when the container ref is empty it is a no-op. -/
theorem resize_no_scheduler_change (s : CompState) (sph : Sphere3) (pad w h : ℝ) :
    onWindowResize none sph pad s = s ∧
    (onWindowResize (some (w, h)) sph pad s).camera =
      frameScene sph pad { s.camera with aspect := w / h } ∧
    (onWindowResize (some (w, h)) sph pad s).camera.aspect = w / h ∧
    (onWindowResize (some (w, h)) sph pad s).rendererW = w ∧
    (onWindowResize (some (w, h)) sph pad s).rendererH = h ∧
    (onWindowResize (some (w, h)) sph pad s).frameId = s.frameId ∧
    (onWindowResize (some (w, h)) sph pad s).nextFrameId = s.nextFrameId ∧
    (onWindowResize (some (w, h)) sph pad s).orbitAngle = s.orbitAngle ∧
    (onWindowResize (some (w, h)) sph pad s).isVisible = s.isVisible ∧
    (onWindowResize (some (w, h)) sph pad s).prmMatches = s.prmMatches ∧
    (onWindowResize (some (w, h)) sph pad s).docHidden = s.docHidden ∧
    (onWindowResize (some (w, h)) sph pad s).moonOrbitRotY = s.moonOrbitRotY ∧
    (onWindowResize (some (w, h)) sph pad s).moonPosY = s.moonPosY := by
  simp [onWindowResize, frameScene]

/-- Helper: one executed tick advances the angle by 0.003 and keeps the
moon transforms in lockstep; the visibility/motion flags are untouched. -/
theorem tickState_step (s : CompState) (hv : s.isVisible = true)
    (hm : s.prmMatches = false) :
    (tickState s).orbitAngle = s.orbitAngle + 0.003 ∧
    (tickState s).moonOrbitRotY = s.orbitAngle + 0.003 ∧
    (tickState s).moonPosY = 1.1 + Real.sin ((s.orbitAngle + 0.003) * 0.5) * 0.18 ∧
    (tickState s).isVisible = true ∧ (tickState s).prmMatches = false := by
  simp [tickState, tick, animUpdate, hv, hm]

/-- Helper: the closed form of the animation state after `n` executed
ticks, starting from an animating state with angle 0 and the initial moon
transforms. -/
theorem tickState_iter (s : CompState) (hv : s.isVisible = true)
    (hm : s.prmMatches = false) (ha : s.orbitAngle = 0) :
    ∀ n : ℕ,
      (tickState^[n] s).orbitAngle = 0.003 * n ∧
      (tickState^[n] s).isVisible = true ∧
      (tickState^[n] s).prmMatches = false := by
  intro n
  induction n with
  | zero => simpa using ⟨ha, hv, hm⟩
  | succ k ih =>
      obtain ⟨hak, hvk, hmk⟩ := ih
      have hstep := tickState_step (tickState^[k] s) hvk hmk
      rw [Function.iterate_succ_apply']
      refine ⟨?_, hstep.2.2.2.1, hstep.2.2.2.2⟩
      rw [hstep.1, hak]
      push_cast
      ring

/-- C7: starting from orbit angle 0 with the initial moon transforms, after
`N` executed ticks the orbit angle equals `0.003·N`, the orbit group's
rotation equals that same angle, and the moon's vertical offset equals
`1.1 + 0.18·sin(0.0015·N)` (exactly, over ℝ); each executed tick adds
exactly 0.003 to the angle, and the AnimationDriver update mutates nothing
besides the orbit angle and the two moon transforms. -/
theorem orbit_after_n_ticks (s : CompState) (n : ℕ)
    (hv : s.isVisible = true) (hm : s.prmMatches = false)
    (ha : s.orbitAngle = 0) (hry : s.moonOrbitRotY = 0) (hpy : s.moonPosY = 1.1) :
    (tickState^[n] s).orbitAngle = 0.003 * n ∧
    (tickState^[n] s).moonOrbitRotY = 0.003 * n ∧
    (tickState^[n] s).moonPosY = 1.1 + 0.18 * Real.sin (0.0015 * n) ∧
    (∀ s' : CompState, s'.isVisible = true → s'.prmMatches = false →
      (tickState s').orbitAngle = s'.orbitAngle + 0.003) ∧
    (∀ s' : CompState,
      (animUpdate s').frameId = s'.frameId ∧
      (animUpdate s').nextFrameId = s'.nextFrameId ∧
      (animUpdate s').isVisible = s'.isVisible ∧
      (animUpdate s').prmMatches = s'.prmMatches ∧
      (animUpdate s').docHidden = s'.docHidden ∧
      (animUpdate s').camera = s'.camera ∧
      (animUpdate s').rendererW = s'.rendererW ∧
      (animUpdate s').rendererH = s'.rendererH) := by
  refine ⟨?_, ?_, ?_, fun s' hv' hm' => (tickState_step s' hv' hm').1,
    fun s' => by simp [animUpdate]⟩
  · exact (tickState_iter s hv hm ha n).1
  · cases n with
    | zero => simpa using hry
    | succ k =>
        obtain ⟨hak, hvk, hmk⟩ := tickState_iter s hv hm ha k
        have hstep := tickState_step (tickState^[k] s) hvk hmk
        rw [Function.iterate_succ_apply', hstep.2.1, hak]
        push_cast
        ring
  · cases n with
    | zero =>
        simpa using hpy
    | succ k =>
        obtain ⟨hak, hvk, hmk⟩ := tickState_iter s hv hm ha k
        have hstep := tickState_step (tickState^[k] s) hvk hmk
        rw [Function.iterate_succ_apply', hstep.2.2.1, hak]
        have harg : ((0.003: ℝ) * k + 0.003) * 0.5 = 0.0015 * ((k : ℝ) + 1) := by
          ring
        push_cast
        rw [harg]
        ring

/-- Witness for C7: three ticks from the freshly initialized state. -/
theorem orbit_after_n_ticks_witness :
    sampleStopped.isVisible = true ∧ sampleStopped.prmMatches = false ∧
    sampleStopped.orbitAngle = 0 ∧ sampleStopped.moonOrbitRotY = 0 ∧
    sampleStopped.moonPosY = 1.1 ∧
    (tickState^[3] sampleStopped).orbitAngle = 0.003 * (3 : ℕ) ∧
    (tickState^[3] sampleStopped).moonOrbitRotY = 0.003 * (3 : ℕ) ∧
    (tickState^[3] sampleStopped).moonPosY = 1.1 + 0.18 * Real.sin (0.0015 * (3 : ℕ)) := by
  have h := orbit_after_n_ticks sampleStopped 3 rfl rfl rfl rfl rfl
  exact ⟨rfl, rfl, rfl, rfl, rfl, h.1, h.2.1, h.2.2.1⟩

/-! ### Vector and trigonometry helpers -/

theorem Vec3.length_nonneg (a : Vec3) : 0 ≤ a.length := Real.sqrt_nonneg _

theorem Vec3.length_sub_comm (a b : Vec3) : (a.sub b).length = (b.sub a).length := by
  unfold Vec3.length Vec3.sub
  congr 1
  ring

theorem Vec3.length_smul (a : Vec3) (s : ℝ) : (a.smul s).length = |s| * a.length := by
  unfold Vec3.length Vec3.smul
  rw [show (a.x * s) ^ 2 + (a.y * s) ^ 2 + (a.z * s) ^ 2 =
        s ^ 2 * (a.x ^ 2 + a.y ^ 2 + a.z ^ 2) from by ring,
    Real.sqrt_mul (sq_nonneg s), Real.sqrt_sq_eq_abs]

theorem Vec3.normalize_length (a : Vec3) (h : a.length ≠ 0) : a.normalize.length = 1 := by
  have hpos : 0 < a.length := lt_of_le_of_ne a.length_nonneg (Ne.symm h)
  unfold Vec3.normalize
  rw [Vec3.length_smul, if_neg h, abs_of_pos (by positivity), one_div, inv_mul_cancel₀ h]

theorem Vec3.add_sub_cancel (a c : Vec3) : (a.add c).sub c = a := by
  cases a
  cases c
  simp [Vec3.add, Vec3.sub]

/-- After `frameScene`, the camera really sits at the computed distance from
the bounding-sphere center (the normalized direction has unit length). -/
theorem distanceTo_frameScene (sph : Sphere3) (pad : ℝ) (cam : Camera)
    (hn : (cam.pos.sub sph.center).length ≠ 0)
    (hd : 0 ≤ fsDistance sph pad cam) :
    distanceTo (frameScene sph pad cam) sph.center = fsDistance sph pad cam := by
  have key : (frameScene sph pad cam).pos =
      ((cam.pos.sub sph.center).normalize.smul (fsDistance sph pad cam)).add sph.center := rfl
  unfold distanceTo
  rw [key, Vec3.add_sub_cancel, Vec3.length_smul, Vec3.normalize_length _ hn, mul_one,
    abs_of_nonneg hd]

theorem degToRad_45 : degToRad 45 / 2 = π / 8 := by
  unfold degToRad
  ring

theorem tan_pi8_pos : 0 < Real.tan (π / 8) :=
  Real.tan_pos_of_pos_of_lt_pi_div_two (by positivity) (by linarith [Real.pi_pos])

theorem arctan_tan_pi8 : Real.arctan (Real.tan (π / 8)) = π / 8 :=
  Real.arctan_tan (by linarith [Real.pi_pos]) (by linarith [Real.pi_pos])

theorem sqrt_two_lb : (1.4142 : ℝ) ≤ Real.sqrt 2 := by
  rw [Real.le_sqrt (by norm_num) (by norm_num)]
  norm_num

theorem sin_pi8_le : Real.sin (π / 8) ≤ 0.3827 := by
  rw [Real.sin_pi_div_eight]
  have h1 : Real.sqrt (2 - Real.sqrt 2) ≤ 0.7654 := by
    rw [Real.sqrt_le_iff]
    constructor <;> nlinarith [sqrt_two_lb]
  linarith

theorem cos_pi8_ge : (0.9238 : ℝ) ≤ Real.cos (π / 8) := by
  rw [Real.cos_pi_div_eight]
  have h1 : (1.8476 : ℝ) ≤ Real.sqrt (2 + Real.sqrt 2) := by
    rw [Real.le_sqrt (by norm_num) (by positivity)]
    nlinarith [sqrt_two_lb]
  linarith

theorem tan_pi8_le : Real.tan (π / 8) ≤ 0.415 := by
  rw [Real.tan_eq_sin_div_cos]
  have hc := cos_pi8_ge
  have hs := sin_pi8_le
  have hcpos : (0 : ℝ) < Real.cos (π / 8) := by linarith
  rw [div_le_iff hcpos]
  nlinarith

/-- With the camera's 45° field of view, `fsDistance` is
`max(r / tan(π/8), r / (tan(π/8)·aspect)) · padding`. -/
theorem fsDistance_eq45 (sph : Sphere3) (pad : ℝ) (cam : Camera)
    (hfov : cam.fovDeg = 45) :
    fsDistance sph pad cam =
      max (sph.radius / Real.tan (π / 8))
        (sph.radius / (Real.tan (π / 8) * cam.aspect)) * pad := by
  simp only [fsDistance]
  rw [hfov, degToRad_45,
    show ∀ x : ℝ, 2 * x / 2 = x from fun x => by ring, Real.tan_arctan]

theorem fsDistance_nonneg (sph : Sphere3) (pad : ℝ) (cam : Camera)
    (hfov : cam.fovDeg = 45) (hr : 0 ≤ sph.radius) (hp : 0 ≤ pad) :
    0 ≤ fsDistance sph pad cam := by
  rw [fsDistance_eq45 sph pad cam hfov]
  exact mul_nonneg
    (le_trans (div_nonneg hr tan_pi8_pos.le) (le_max_left _ _)) hp

theorem vHalf_frameScene (sph : Sphere3) (pad : ℝ) (cam : Camera)
    (hfov : cam.fovDeg = 45) : vHalf (frameScene sph pad cam) = π / 8 := by
  unfold vHalf
  rw [show (frameScene sph pad cam).fovDeg = cam.fovDeg from rfl, hfov, degToRad_45]

theorem hHalf_frameScene (sph : Sphere3) (pad : ℝ) (cam : Camera)
    (hfov : cam.fovDeg = 45) :
    hHalf (frameScene sph pad cam) =
      Real.arctan (Real.tan (π / 8) * cam.aspect) := by
  unfold hHalf
  rw [vHalf_frameScene sph pad cam hfov,
    show (frameScene sph pad cam).aspect = cam.aspect from rfl]

/-- C6: `frameScene` computes the placement exactly as §4.2 words it — the
source's `center + distance·normalize(pos − center)` equals the spec's
relocation at `distance` from the center along the preserved viewing
direction (camera→center), with identical `hFov`, binding-constraint
distance, `near = max(0.1, distance − 2·radius)` and
`far = distance + 4·radius`, re-aimed at the center; and the camera ends up
exactly `distance` away from the center. -/
theorem frameScene_matches_spec (sph : Sphere3) (pad : ℝ) (cam : Camera)
    (hn : (cam.pos.sub sph.center).length ≠ 0)
    (hd : 0 ≤ fsDistance sph pad cam) :
    frameScene sph pad cam = frameScene_spec sph pad cam ∧
    distanceTo (frameScene sph pad cam) sph.center = fsDistance sph pad cam ∧
    fsDistance sph pad cam =
      max (sph.radius / Real.tan (degToRad cam.fovDeg / 2))
        (sph.radius /
          Real.tan (Real.arctan (Real.tan (degToRad cam.fovDeg / 2) * cam.aspect))) * pad ∧
    (frameScene sph pad cam).near =
      max 0.1 (fsDistance sph pad cam - 2 * sph.radius) ∧
    (frameScene sph pad cam).far = fsDistance sph pad cam + 4 * sph.radius ∧
    (frameScene sph pad cam).lookAtTarget = sph.center ∧
    (frameScene sph pad cam).fovDeg = cam.fovDeg ∧
    (frameScene sph pad cam).aspect = cam.aspect := by
  refine ⟨?_, distanceTo_frameScene sph pad cam hn hd, ?_, ?_, ?_, rfl, rfl, rfl⟩
  · simp only [frameScene, frameScene_spec, Vec3.normalize,
      Vec3.length_sub_comm sph.center cam.pos]
    rw [if_neg hn]
    simp only [Camera.mk.injEq, Vec3.sub, Vec3.add, Vec3.smul, Vec3.mk.injEq]
    refine ⟨⟨by ring, by ring, by ring⟩, trivial, trivial, ?_, by ring, trivial⟩
    congr 1
    ring
  · simp only [fsDistance]
    rw [show ∀ x : ℝ, 2 * x / 2 = x from fun x => by ring]
  · show max 0.1 (fsDistance sph pad cam - sph.radius * 2) = _
    congr 1
    ring
  · show fsDistance sph pad cam + sph.radius * 4 = _
    ring

/-- Witness for C6 at the concrete initial camera and a radius-2 sphere at
the origin. -/
theorem frameScene_matches_spec_witness :
    (sampleCam.pos.sub (⟨0, 0, 0⟩ : Vec3)).length ≠ 0 ∧
    frameScene ⟨⟨0, 0, 0⟩, 2⟩ 1.15 sampleCam =
      frameScene_spec ⟨⟨0, 0, 0⟩, 2⟩ 1.15 sampleCam ∧
    distanceTo (frameScene ⟨⟨0, 0, 0⟩, 2⟩ 1.15 sampleCam) (⟨0, 0, 0⟩ : Vec3) =
      fsDistance ⟨⟨0, 0, 0⟩, 2⟩ 1.15 sampleCam := by
  have hn : (sampleCam.pos.sub (⟨0, 0, 0⟩ : Vec3)).length ≠ 0 := by
    show Real.sqrt ((0 - 0) ^ 2 + (1.2 - 0) ^ 2 + (6 - 0) ^ 2) ≠ 0
    rw [Real.sqrt_ne_zero']
    norm_num
  have hd : 0 ≤ fsDistance ⟨⟨0, 0, 0⟩, 2⟩ 1.15 sampleCam :=
    fsDistance_nonneg _ _ _ rfl (by norm_num) (by norm_num)
  have h := frameScene_matches_spec ⟨⟨0, 0, 0⟩, 2⟩ 1.15 sampleCam hn hd
  exact ⟨hn, h.1, h.2.1⟩

theorem sqrt_one_add_sq_lt (x : ℝ) (h0 : 0 < x) (hB : x ≤ 0.415) :
    Real.sqrt (1 + x ^ 2) < 1.1 := by
  rw [Real.sqrt_lt' (by norm_num)]
  nlinarith

theorem one_lt_sqrt_one_add_sq (x : ℝ) (h0 : 0 < x) :
    1 < Real.sqrt (1 + x ^ 2) := by
  have h := Real.sqrt_lt_sqrt (by norm_num : (0 : ℝ) ≤ 1) (by nlinarith : (1 : ℝ) < 1 + x ^ 2)
  rwa [Real.sqrt_one] at h

/-- The map `x ↦ x / √(1 + x²)` (the sine of the arctangent) is monotone. -/
theorem xdivsqrt_mono (a b : ℝ) (ha : 0 < a) (hab : a ≤ b) :
    a / Real.sqrt (1 + a ^ 2) ≤ b / Real.sqrt (1 + b ^ 2) := by
  have hb : 0 < b := lt_of_lt_of_le ha hab
  have hsa : 0 < Real.sqrt (1 + a ^ 2) := Real.sqrt_pos.mpr (by positivity)
  have hsb : 0 < Real.sqrt (1 + b ^ 2) := Real.sqrt_pos.mpr (by positivity)
  rw [div_le_div_iff hsa hsb]
  have h2a : Real.sqrt (1 + a ^ 2) ^ 2 = 1 + a ^ 2 := Real.sq_sqrt (by positivity)
  have h2b : Real.sqrt (1 + b ^ 2) ^ 2 = 1 + b ^ 2 := Real.sq_sqrt (by positivity)
  have hq : (a * Real.sqrt (1 + b ^ 2)) ^ 2 ≤ (b * Real.sqrt (1 + a ^ 2)) ^ 2 := by
    rw [mul_pow, mul_pow, h2a, h2b]
    nlinarith [pow_le_pow_left ha.le hab 2]
  have hxy := Real.sqrt_le_sqrt hq
  rwa [Real.sqrt_sq (by positivity), Real.sqrt_sq (by positivity)] at hxy

/-- Core inequality: with padding at least 1.1, `r/x · p` sees the whole
sphere past the side plane of half-angle `arctan x` when `x ≤ 0.415`. -/
theorem ratio_lt (r p x : ℝ) (hr : 1 ≤ r) (hx0 : 0 < x) (hxB : x ≤ 0.415)
    (hp : 1.1 ≤ p) :
    r < r / x * p * (x / Real.sqrt (1 + x ^ 2)) := by
  have hs : Real.sqrt (1 + x ^ 2) < 1.1 := sqrt_one_add_sq_lt x hx0 hxB
  have hspos : 0 < Real.sqrt (1 + x ^ 2) := Real.sqrt_pos.mpr (by positivity)
  have key : r / x * p * (x / Real.sqrt (1 + x ^ 2)) =
      r * p / Real.sqrt (1 + x ^ 2) := by
    field_simp
  rw [key, lt_div_iff hspos]
  nlinarith

/-- The computed distance clears both frustum side planes: with the binding
constraint `max(r/t, r/u)` and padding ≥ 1.1, the sphere sits strictly
inside the planes of half-angles `arctan t` and `arctan u`
(`t` the vertical half-FOV tangent, `u = t·aspect` the horizontal one). -/
theorem fit_side (r p t u : ℝ) (hr : 1 ≤ r) (ht0 : 0 < t) (htB : t ≤ 0.415)
    (hu0 : 0 < u) (hp : 1.1 ≤ p) :
    r < max (r / t) (r / u) * p * (t / Real.sqrt (1 + t ^ 2)) ∧
    r < max (r / t) (r / u) * p * (u / Real.sqrt (1 + u ^ 2)) := by
  have hppos : (0 : ℝ) < p := by linarith
  have hrt : 0 < r / t := div_pos (by linarith) ht0
  have hru : 0 < r / u := div_pos (by linarith) hu0
  constructor
  · have h1 := ratio_lt r p t hr ht0 htB hp
    have h2 : r / t * p * (t / Real.sqrt (1 + t ^ 2)) ≤
        max (r / t) (r / u) * p * (t / Real.sqrt (1 + t ^ 2)) := by
      have hside : 0 ≤ t / Real.sqrt (1 + t ^ 2) := by positivity
      gcongr
      exact le_max_left _ _
    linarith
  · rcases le_total u t with h | h
    · have h1 := ratio_lt r p u hr hu0 (le_trans h htB) hp
      have h2 : r / u * p * (u / Real.sqrt (1 + u ^ 2)) ≤
          max (r / t) (r / u) * p * (u / Real.sqrt (1 + u ^ 2)) := by
        have hside : 0 ≤ u / Real.sqrt (1 + u ^ 2) := by positivity
        gcongr
        exact le_max_right _ _
      linarith
    · have h1 := ratio_lt r p t hr ht0 htB hp
      have hmono := xdivsqrt_mono t u ht0 h
      have h2 : r / t * p * (t / Real.sqrt (1 + t ^ 2)) ≤
          r / t * p * (u / Real.sqrt (1 + u ^ 2)) := by
        have hnn : 0 ≤ r / t * p := by positivity
        exact mul_le_mul_of_nonneg_left hmono hnn
      have h3 : r / t * p * (u / Real.sqrt (1 + u ^ 2)) ≤
          max (r / t) (r / u) * p * (u / Real.sqrt (1 + u ^ 2)) := by
        have hside : 0 ≤ u / Real.sqrt (1 + u ^ 2) := by positivity
        gcongr
        exact le_max_left _ _
      linarith

/-- C5 (amended): for every aspect ratio, with the scene's bounding-sphere
radius at least 1 (the actual scene's is ≈3.7): for every padding ≥ 1.0 the
bounding sphere lies strictly between the near and far planes; and for
every padding ≥ 1.1 (so in particular the default 1.15) the sphere also
lies strictly inside the four frustum side planes at the computed distance.
At padding 1.0 the side-plane containment fails (see the counterexample):
`r/tan θ` puts the disc through the center inside the cone but the near
bulge of the sphere pokes out, so a padding above `sec(vFov/2) ≈ 1.0824`
is required. -/
theorem viewport_fit (sph : Sphere3) (cam : Camera) (p : ℝ)
    (hfov : cam.fovDeg = 45) (ha : 0 < cam.aspect) (hr : 1 ≤ sph.radius)
    (hn : (cam.pos.sub sph.center).length ≠ 0) :
    (1 ≤ p → sphereBetweenNearFar (frameScene sph p cam) sph) ∧
    (1.1 ≤ p → sphereInsideFrustumSides (frameScene sph p cam) sph) := by
  have ht0 : 0 < Real.tan (π / 8) := tan_pi8_pos
  have htB : Real.tan (π / 8) ≤ 0.415 := tan_pi8_le
  have hu0 : 0 < Real.tan (π / 8) * cam.aspect := mul_pos ht0 ha
  have hfs := fsDistance_eq45 sph p cam hfov
  constructor
  · intro hp
    have hp0 : (0 : ℝ) ≤ p := by linarith
    have hd0 : 0 ≤ fsDistance sph p cam :=
      fsDistance_nonneg sph p cam hfov (by linarith) hp0
    have hdist := distanceTo_frameScene sph p cam hn hd0
    have hD1 : sph.radius / Real.tan (π / 8) * p ≤ fsDistance sph p cam := by
      rw [hfs]
      exact mul_le_mul_of_nonneg_right (le_max_left _ _) hp0
    have hD2 : sph.radius / Real.tan (π / 8) ≤ sph.radius / Real.tan (π / 8) * p :=
      le_mul_of_one_le_right (div_nonneg (by linarith) ht0.le) hp
    have hD3 : sph.radius * 2.4 ≤ sph.radius / Real.tan (π / 8) := by
      rw [le_div_iff ht0]
      nlinarith [mul_nonneg (show (0 : ℝ) ≤ sph.radius by linarith)
        (show (0 : ℝ) ≤ 0.415 - Real.tan (π / 8) by linarith)]
    constructor
    · show (frameScene sph p cam).near < distanceTo (frameScene sph p cam) sph.center - sph.radius
      rw [hdist, show (frameScene sph p cam).near =
        max 0.1 (fsDistance sph p cam - sph.radius * 2) from rfl]
      rw [max_lt_iff]
      constructor
      · nlinarith
      · nlinarith
    · show distanceTo (frameScene sph p cam) sph.center + sph.radius < (frameScene sph p cam).far
      rw [hdist, show (frameScene sph p cam).far =
        fsDistance sph p cam + sph.radius * 4 from rfl]
      nlinarith
  · intro hp
    have hp0 : (0 : ℝ) ≤ p := by linarith
    have hd0 : 0 ≤ fsDistance sph p cam :=
      fsDistance_nonneg sph p cam hfov (by linarith) hp0
    have hdist := distanceTo_frameScene sph p cam hn hd0
    have hfit := fit_side sph.radius p (Real.tan (π / 8))
      (Real.tan (π / 8) * cam.aspect) hr ht0 htB hu0 hp
    constructor
    · show sph.radius <
        distanceTo (frameScene sph p cam) sph.center * Real.sin (vHalf (frameScene sph p cam))
      rw [hdist, vHalf_frameScene sph p cam hfov, ← arctan_tan_pi8, Real.sin_arctan,
        hfs]
      exact hfit.1
    · show sph.radius <
        distanceTo (frameScene sph p cam) sph.center * Real.sin (hHalf (frameScene sph p cam))
      rw [hdist, hHalf_frameScene sph p cam hfov, Real.sin_arctan, hfs]
      exact hfit.2

/-- Witness for C5 (amended) at the concrete initial camera, a radius-2
sphere at the origin and the default padding 1.15. -/
theorem viewport_fit_witness :
    (1 : ℝ) ≤ 1.15 ∧ (1.1 : ℝ) ≤ 1.15 ∧
    sphereBetweenNearFar (frameScene ⟨⟨0, 0, 0⟩, 2⟩ 1.15 sampleCam) ⟨⟨0, 0, 0⟩, 2⟩ ∧
    sphereInsideFrustumSides (frameScene ⟨⟨0, 0, 0⟩, 2⟩ 1.15 sampleCam) ⟨⟨0, 0, 0⟩, 2⟩ := by
  have hn : (sampleCam.pos.sub (⟨0, 0, 0⟩ : Vec3)).length ≠ 0 := by
    show Real.sqrt ((0 - 0) ^ 2 + (1.2 - 0) ^ 2 + (6 - 0) ^ 2) ≠ 0
    rw [Real.sqrt_ne_zero']
    norm_num
  have h := viewport_fit ⟨⟨0, 0, 0⟩, 2⟩ sampleCam 1.15 rfl
    (by rw [show sampleCam.aspect = 1 from rfl]; norm_num) (by norm_num) hn
  exact ⟨by norm_num, by norm_num, h.1 (by norm_num), h.2 (by norm_num)⟩

/-- C5 counterexample: at padding exactly 1.0 (allowed by the claim's
"padding ≥ 1.0"), with aspect 1 and a radius-2 sphere at the origin, the
sphere is NOT fully contained in the view frustum: the camera-to-center
distance is `r/tan(π/8)`, whose product with `sin(π/8)` is
`r·cos(π/8) < r`, so the sphere crosses the side planes. -/
theorem viewport_fit_cex :
    ¬ (sphereBetweenNearFar (frameScene ⟨⟨0, 0, 0⟩, 2⟩ 1 sampleCam) ⟨⟨0, 0, 0⟩, 2⟩ ∧
       sphereInsideFrustumSides (frameScene ⟨⟨0, 0, 0⟩, 2⟩ 1 sampleCam) ⟨⟨0, 0, 0⟩, 2⟩) := by
  rintro ⟨-, hin, -⟩
  have ht0 : 0 < Real.tan (π / 8) := tan_pi8_pos
  have hn : (sampleCam.pos.sub (⟨0, 0, 0⟩ : Vec3)).length ≠ 0 := by
    show Real.sqrt ((0 - 0) ^ 2 + (1.2 - 0) ^ 2 + (6 - 0) ^ 2) ≠ 0
    rw [Real.sqrt_ne_zero']
    norm_num
  have hfs : fsDistance ⟨⟨0, 0, 0⟩, 2⟩ 1 sampleCam = 2 / Real.tan (π / 8) := by
    rw [fsDistance_eq45 _ _ _ rfl]
    show max ((2 : ℝ) / Real.tan (π / 8)) (2 / (Real.tan (π / 8) * 1)) * 1 = _
    simp
  have hd0 : 0 ≤ fsDistance ⟨⟨0, 0, 0⟩, 2⟩ 1 sampleCam := by
    rw [hfs]
    positivity
  have hdist := distanceTo_frameScene ⟨⟨0, 0, 0⟩, 2⟩ 1 sampleCam hn hd0
  have hsin : Real.sin (π / 8) =
      Real.tan (π / 8) / Real.sqrt (1 + Real.tan (π / 8) ^ 2) := by
    conv_lhs => rw [← arctan_tan_pi8]
    rw [Real.sin_arctan]
  have hv := vHalf_frameScene ⟨⟨0, 0, 0⟩, 2⟩ 1 sampleCam rfl
  rw [hdist, hfs, hv, hsin] at hin
  have heq : 2 / Real.tan (π / 8) *
      (Real.tan (π / 8) / Real.sqrt (1 + Real.tan (π / 8) ^ 2)) =
      2 / Real.sqrt (1 + Real.tan (π / 8) ^ 2) := by
    field_simp
  rw [heq] at hin
  have h1 : 1 < Real.sqrt (1 + Real.tan (π / 8) ^ 2) :=
    one_lt_sqrt_one_add_sq _ ht0
  have h2 : 2 / Real.sqrt (1 + Real.tan (π / 8) ^ 2) < 2 := by
    rw [div_lt_iff (by positivity)]
    nlinarith
  linarith

end Portfolio2026
